import Mathlib

/-!
# argo: in-process workflow client adapter and dual-protocol server

A shallow embedding of

* `pkg/apiclient/argo-kube-workflow-service-client.go`: the adapter
  `argoKubeWorkflowServiceClient`, which implements the client interface of the
  workflow service by forwarding to a server-side implementation (`delegate`);
* `server/server.go`: `ArgoCDServer.Run` and `mustRegisterGWHandler`, which open one
  TCP socket, put a `cmux` connection multiplexer over it and serve gRPC and
  HTTP/1.1+JSON on its two sub-listeners.

Go calls are state transformers that end in a return, a panic, or never end.
-/

namespace Go

/-- Value carried by a Go panic: `panic("text")` carries a string, `panic(err)` an
error value. -/
inductive PanicValue (E : Type) where
  | str (s : String)
  | err (e : E)
  deriving DecidableEq, Repr

/-- The three ways a Go call can end: it returns a value, it panics, or it never
returns (it blocks or loops forever). -/
inductive Outcome (E α : Type) where
  | returned (v : α)
  | panicked (p : PanicValue E)
  | blocked
  deriving DecidableEq, Repr

/-- A Go call over a mutable world `σ`: from the world before the call to the way
the call ends and the world after it. -/
def Exec (σ E α : Type) : Type := σ → Outcome E α × σ

/-- The statement `return v`. -/
def Exec.ret {σ E α : Type} (v : α) : Exec σ E α := fun w => (Outcome.returned v, w)

/-- The statement `panic(p)`. -/
def Exec.panic {σ E α : Type} (p : PanicValue E) : Exec σ E α :=
  fun w => (Outcome.panicked p, w)

/-- Sequencing of statements: a panic or a call that never returns ends the whole
sequence there. -/
def Exec.seq {σ E α β : Type} (x : Exec σ E α) (f : α → Exec σ E β) : Exec σ E β :=
  fun w =>
    match x w with
    | (Outcome.returned v, w1) => f v w1
    | (Outcome.panicked p, w1) => (Outcome.panicked p, w1)
    | (Outcome.blocked, w1) => (Outcome.blocked, w1)

instance (σ E : Type) : Monad (Exec σ E) where
  pure := Exec.ret
  bind := Exec.seq

/-- The statement `defer d()` at the head of a function body `body`: `d` runs when
the body returns or panics, and not while the body never returns. The deferred
calls of this development neither panic nor return a value that is used. -/
def Exec.withDefer {σ E α : Type} (d : σ → σ) (body : Exec σ E α) : Exec σ E α :=
  fun w =>
    match body w with
    | (Outcome.returned v, w1) => (Outcome.returned v, d w1)
    | (Outcome.panicked p, w1) => (Outcome.panicked p, d w1)
    | (Outcome.blocked, w1) => (Outcome.blocked, w1)

end Go

/-! ## `pkg/apiclient/argo-kube-workflow-service-client.go` -/

namespace apiclient

open Go

/-- The types the adapter's signatures name and that are declared in other packages
(`context`, `google.golang.org/grpc`, `workflowpkg`, `v1alpha1`), taken as
parameters. A Go pointer `*T` is an `Option T` (`nil` is `none`), a value of the
interface `error` is an `Option Error`. -/
structure Schema where
  Context : Type
  CallOption : Type
  Error : Type
  WorkflowCreateRequest : Type
  WorkflowGetRequest : Type
  WorkflowListRequest : Type
  WatchWorkflowsRequest : Type
  WorkflowDeleteRequest : Type
  WorkflowRetryRequest : Type
  WorkflowResubmitRequest : Type
  WorkflowResumeRequest : Type
  WorkflowSuspendRequest : Type
  WorkflowTerminateRequest : Type
  WorkflowLintRequest : Type
  WorkflowLogRequest : Type
  Workflow : Type
  WorkflowList : Type
  WorkflowDeleteResponse : Type
  WorkflowService_WatchWorkflowsServer : Type
  WorkflowService_PodLogsServer : Type
  WorkflowService_WatchWorkflowsClient : Type
  WorkflowService_PodLogsClient : Type

/-- The interface `workflowpkg.WorkflowServiceServer` of the delegate (declared in
the generated package `workflowpkg`, taken as a parameter): one method per RPC,
each an arbitrary Go call over the delegate's own state `σ`. The ten unary methods
take a context and a request and return the pair `(response, error)`; the two
streaming methods take a request and the server side of a stream and return an
error. -/
structure WorkflowServiceServer (S : Schema) (σ : Type) where
  CreateWorkflow : S.Context → Option S.WorkflowCreateRequest →
    Exec σ S.Error (Option S.Workflow × Option S.Error)
  GetWorkflow : S.Context → Option S.WorkflowGetRequest →
    Exec σ S.Error (Option S.Workflow × Option S.Error)
  ListWorkflows : S.Context → Option S.WorkflowListRequest →
    Exec σ S.Error (Option S.WorkflowList × Option S.Error)
  WatchWorkflows : Option S.WatchWorkflowsRequest → S.WorkflowService_WatchWorkflowsServer →
    Exec σ S.Error (Option S.Error)
  DeleteWorkflow : S.Context → Option S.WorkflowDeleteRequest →
    Exec σ S.Error (Option S.WorkflowDeleteResponse × Option S.Error)
  RetryWorkflow : S.Context → Option S.WorkflowRetryRequest →
    Exec σ S.Error (Option S.Workflow × Option S.Error)
  ResubmitWorkflow : S.Context → Option S.WorkflowResubmitRequest →
    Exec σ S.Error (Option S.Workflow × Option S.Error)
  ResumeWorkflow : S.Context → Option S.WorkflowResumeRequest →
    Exec σ S.Error (Option S.Workflow × Option S.Error)
  SuspendWorkflow : S.Context → Option S.WorkflowSuspendRequest →
    Exec σ S.Error (Option S.Workflow × Option S.Error)
  TerminateWorkflow : S.Context → Option S.WorkflowTerminateRequest →
    Exec σ S.Error (Option S.Workflow × Option S.Error)
  LintWorkflow : S.Context → Option S.WorkflowLintRequest →
    Exec σ S.Error (Option S.Workflow × Option S.Error)
  PodLogs : Option S.WorkflowLogRequest → S.WorkflowService_PodLogsServer →
    Exec σ S.Error (Option S.Error)

/-- The adapter: `type argoKubeWorkflowServiceClient struct { delegate ... }`. -/
structure argoKubeWorkflowServiceClient (S : Schema) (σ : Type) where
  delegate : WorkflowServiceServer S σ

section Methods

variable {S : Schema} {σ : Type}

/-- Go `return c.delegate.CreateWorkflow(ctx, req)` -/
def argoKubeWorkflowServiceClient.CreateWorkflow (c : argoKubeWorkflowServiceClient S σ)
    (ctx : S.Context) (req : Option S.WorkflowCreateRequest) (_ : List S.CallOption) :
    Exec σ S.Error (Option S.Workflow × Option S.Error) :=
  c.delegate.CreateWorkflow ctx req

/-- Go `return c.delegate.GetWorkflow(ctx, req)` -/
def argoKubeWorkflowServiceClient.GetWorkflow (c : argoKubeWorkflowServiceClient S σ)
    (ctx : S.Context) (req : Option S.WorkflowGetRequest) (_ : List S.CallOption) :
    Exec σ S.Error (Option S.Workflow × Option S.Error) :=
  c.delegate.GetWorkflow ctx req

/-- Go `return c.delegate.ListWorkflows(ctx, req)` -/
def argoKubeWorkflowServiceClient.ListWorkflows (c : argoKubeWorkflowServiceClient S σ)
    (ctx : S.Context) (req : Option S.WorkflowListRequest) (_ : List S.CallOption) :
    Exec σ S.Error (Option S.WorkflowList × Option S.Error) :=
  c.delegate.ListWorkflows ctx req

/-- The body is `panic("not implemented")`. -/
def argoKubeWorkflowServiceClient.WatchWorkflows (_c : argoKubeWorkflowServiceClient S σ)
    (_ctx : S.Context) (_req : Option S.WatchWorkflowsRequest) (_ : List S.CallOption) :
    Exec σ S.Error (Option S.WorkflowService_WatchWorkflowsClient × Option S.Error) :=
  Exec.panic (PanicValue.str "not implemented")

/-- Go `return c.delegate.DeleteWorkflow(ctx, req)` -/
def argoKubeWorkflowServiceClient.DeleteWorkflow (c : argoKubeWorkflowServiceClient S σ)
    (ctx : S.Context) (req : Option S.WorkflowDeleteRequest) (_ : List S.CallOption) :
    Exec σ S.Error (Option S.WorkflowDeleteResponse × Option S.Error) :=
  c.delegate.DeleteWorkflow ctx req

/-- Go `return c.delegate.RetryWorkflow(ctx, req)` -/
def argoKubeWorkflowServiceClient.RetryWorkflow (c : argoKubeWorkflowServiceClient S σ)
    (ctx : S.Context) (req : Option S.WorkflowRetryRequest) (_ : List S.CallOption) :
    Exec σ S.Error (Option S.Workflow × Option S.Error) :=
  c.delegate.RetryWorkflow ctx req

/-- Go `return c.delegate.ResubmitWorkflow(ctx, req)` -/
def argoKubeWorkflowServiceClient.ResubmitWorkflow (c : argoKubeWorkflowServiceClient S σ)
    (ctx : S.Context) (req : Option S.WorkflowResubmitRequest) (_ : List S.CallOption) :
    Exec σ S.Error (Option S.Workflow × Option S.Error) :=
  c.delegate.ResubmitWorkflow ctx req

/-- Go `return c.delegate.ResumeWorkflow(ctx, req)` -/
def argoKubeWorkflowServiceClient.ResumeWorkflow (c : argoKubeWorkflowServiceClient S σ)
    (ctx : S.Context) (req : Option S.WorkflowResumeRequest) (_ : List S.CallOption) :
    Exec σ S.Error (Option S.Workflow × Option S.Error) :=
  c.delegate.ResumeWorkflow ctx req

/-- Go `return c.delegate.SuspendWorkflow(ctx, req)` -/
def argoKubeWorkflowServiceClient.SuspendWorkflow (c : argoKubeWorkflowServiceClient S σ)
    (ctx : S.Context) (req : Option S.WorkflowSuspendRequest) (_ : List S.CallOption) :
    Exec σ S.Error (Option S.Workflow × Option S.Error) :=
  c.delegate.SuspendWorkflow ctx req

/-- Go `return c.delegate.TerminateWorkflow(ctx, req)` -/
def argoKubeWorkflowServiceClient.TerminateWorkflow (c : argoKubeWorkflowServiceClient S σ)
    (ctx : S.Context) (req : Option S.WorkflowTerminateRequest) (_ : List S.CallOption) :
    Exec σ S.Error (Option S.Workflow × Option S.Error) :=
  c.delegate.TerminateWorkflow ctx req

/-- Go `return c.delegate.LintWorkflow(ctx, req)` -/
def argoKubeWorkflowServiceClient.LintWorkflow (c : argoKubeWorkflowServiceClient S σ)
    (ctx : S.Context) (req : Option S.WorkflowLintRequest) (_ : List S.CallOption) :
    Exec σ S.Error (Option S.Workflow × Option S.Error) :=
  c.delegate.LintWorkflow ctx req

/-- The body is `panic("not implemented")`. -/
def argoKubeWorkflowServiceClient.PodLogs (_c : argoKubeWorkflowServiceClient S σ)
    (_ctx : S.Context) (_req : Option S.WorkflowLogRequest) (_ : List S.CallOption) :
    Exec σ S.Error (Option S.WorkflowService_PodLogsClient × Option S.Error) :=
  Exec.panic (PanicValue.str "not implemented")

end Methods

/-- One invocation of a method of the delegate, with its arguments. -/
inductive DelegateCall (S : Schema) where
  | CreateWorkflow (ctx : S.Context) (req : Option S.WorkflowCreateRequest)
  | GetWorkflow (ctx : S.Context) (req : Option S.WorkflowGetRequest)
  | ListWorkflows (ctx : S.Context) (req : Option S.WorkflowListRequest)
  | WatchWorkflows (req : Option S.WatchWorkflowsRequest)
      (stream : S.WorkflowService_WatchWorkflowsServer)
  | DeleteWorkflow (ctx : S.Context) (req : Option S.WorkflowDeleteRequest)
  | RetryWorkflow (ctx : S.Context) (req : Option S.WorkflowRetryRequest)
  | ResubmitWorkflow (ctx : S.Context) (req : Option S.WorkflowResubmitRequest)
  | ResumeWorkflow (ctx : S.Context) (req : Option S.WorkflowResumeRequest)
  | SuspendWorkflow (ctx : S.Context) (req : Option S.WorkflowSuspendRequest)
  | TerminateWorkflow (ctx : S.Context) (req : Option S.WorkflowTerminateRequest)
  | LintWorkflow (ctx : S.Context) (req : Option S.WorkflowLintRequest)
  | PodLogs (req : Option S.WorkflowLogRequest) (stream : S.WorkflowService_PodLogsServer)

/-- Runs a call of a delegate and appends its record to the log of invocations. -/
def logged {S : Schema} {σ α : Type} (call : DelegateCall S) (x : Exec σ S.Error α) :
    Exec (σ × List (DelegateCall S)) S.Error α :=
  fun w => ((x w.1).1, ((x w.1).2, w.2 ++ [call]))

/-- A recording proxy around a delegate `d` (an observer for the proofs, not part of
the source): it behaves as `d` on the first component of the state and logs every
invocation of every method in the second. -/
def recording {S : Schema} {σ : Type} (d : WorkflowServiceServer S σ) :
    WorkflowServiceServer S (σ × List (DelegateCall S)) where
  CreateWorkflow ctx req := logged (.CreateWorkflow ctx req) (d.CreateWorkflow ctx req)
  GetWorkflow ctx req := logged (.GetWorkflow ctx req) (d.GetWorkflow ctx req)
  ListWorkflows ctx req := logged (.ListWorkflows ctx req) (d.ListWorkflows ctx req)
  WatchWorkflows req stream := logged (.WatchWorkflows req stream) (d.WatchWorkflows req stream)
  DeleteWorkflow ctx req := logged (.DeleteWorkflow ctx req) (d.DeleteWorkflow ctx req)
  RetryWorkflow ctx req := logged (.RetryWorkflow ctx req) (d.RetryWorkflow ctx req)
  ResubmitWorkflow ctx req := logged (.ResubmitWorkflow ctx req) (d.ResubmitWorkflow ctx req)
  ResumeWorkflow ctx req := logged (.ResumeWorkflow ctx req) (d.ResumeWorkflow ctx req)
  SuspendWorkflow ctx req := logged (.SuspendWorkflow ctx req) (d.SuspendWorkflow ctx req)
  TerminateWorkflow ctx req := logged (.TerminateWorkflow ctx req) (d.TerminateWorkflow ctx req)
  LintWorkflow ctx req := logged (.LintWorkflow ctx req) (d.LintWorkflow ctx req)
  PodLogs req stream := logged (.PodLogs req stream) (d.PodLogs req stream)

end apiclient

/-! ## `server/server.go` -/

namespace server

open Go

/-- Go `const ( port = 8080 )` -/
def port : Nat := 8080

/-- Go `endpoint = fmt.Sprintf("localhost:%d", port)` -/
def endpoint : String := "localhost:" ++ toString port

/-- A non-nil value of the interface `error`: its message and, when the value also
implements `net.Error`, what its method `Temporary()` returns. A value of type
`error` is an `Option Error` and `nil` is `none`. -/
structure Error where
  msg : String
  temporary : Option Bool
  deriving DecidableEq, Repr

/-- The contexts `Run` makes: `context.Background()` and the child that
`context.WithCancel` derives from a parent. -/
inductive Context where
  | Background
  | WithCancel (parent : Context)
  deriving DecidableEq, Repr

/-- The socket that `net.Listen(network, address)` opens. -/
structure TCPListener where
  network : String
  address : String
  deriving DecidableEq, Repr

/-- A sub-listener of the multiplexer (`cmux.muxListener`): the root listener it
embeds and its own channel `connc` of matched connections. Every call of `Match`
makes a new channel; the channel is identified by its creation index. -/
structure muxListener where
  root : TCPListener
  connc : Nat
  deriving DecidableEq, Repr

/-- The values of the interface `net.Listener` that occur in `Run`: the raw socket
and the sub-listeners of the multiplexer. -/
inductive Listener where
  | tcp (l : TCPListener)
  | mux (l : muxListener)
  deriving DecidableEq, Repr

/-- The matchers of `cmux` that `Run` registers, as data. -/
inductive Matcher where
  | HTTP2HeaderField (name value : String)
  | HTTP1Fast (extMethods : List String)
  deriving DecidableEq, Repr

/-- An accepted connection: an identity and the bytes its peer sends first. -/
structure Conn where
  id : Nat
  bytes : List Nat
  deriving DecidableEq, Repr

/-- Go `matchersListener` of `cmux`: the matchers of one `Match` call and the
sub-listener the call returned. -/
structure matchersListener where
  ss : List Matcher
  l : muxListener
  deriving DecidableEq, Repr

/-- Go `noTimeout` of `cmux`: the zero `time.Duration`. -/
def noTimeout : Int := 0

/-- The multiplexer `cmux.cMux`. -/
structure cMux where
  root : TCPListener
  bufLen : Nat
  errh : Error → Bool
  sls : List matchersListener
  readTimeout : Int

/-- Go `grpc.Server`, by the services registered in it. -/
structure grpc.Server where
  services : List String
  deriving DecidableEq, Repr

/-- Go `grpc.DialOption`; `Run` uses `grpc.WithInsecure()` only. -/
inductive grpc.DialOption where
  | WithInsecure
  deriving DecidableEq, Repr

/-- Go `runtime.ServeMuxOption`; `Run` uses
`runtime.WithMarshalerOption(runtime.MIMEWildcard, new(protoutil.JSONPb))` only. -/
inductive runtime.ServeMuxOption where
  | WithMarshalerOption (mime : String) (marshaler : String)
  deriving DecidableEq, Repr

/-- The gateway mux `runtime.ServeMux` of grpc-gateway, by the options it was made
with. -/
structure runtime.ServeMux where
  opts : List runtime.ServeMuxOption
  deriving DecidableEq, Repr

/-- Go `runtime.MIMEWildcard` -/
def runtime.MIMEWildcard : String := "*"

/-- Go `runtime.NewServeMux(opts...)` -/
def runtime.NewServeMux (opts : List runtime.ServeMuxOption) : runtime.ServeMux :=
  { opts := opts }

/-- Go `http.ServeMux`, by its routes: pattern and handler, in registration order. The
only handler `Run` registers is the gateway mux. -/
structure http.ServeMux where
  routes : List (String × runtime.ServeMux)
  deriving DecidableEq, Repr

/-- Go `http.NewServeMux()` -/
def http.NewServeMux : http.ServeMux := { routes := [] }

/-- Go `mux.Handle(pattern, handler)` -/
def http.ServeMux.Handle (mux : http.ServeMux) (pattern : String) (handler : runtime.ServeMux) :
    http.ServeMux :=
  { routes := mux.routes ++ [(pattern, handler)] }

/-- Go `http.Server`, by the two fields `Run` sets. -/
structure http.Server where
  Addr : String
  Handler : http.ServeMux
  deriving DecidableEq, Repr

/-- Go `grpc.NewServer()` -/
def grpc.NewServer : grpc.Server := { services := [] }

/-- Go `version.RegisterVersionServiceServer(s, &version.Server{})` -/
def version.RegisterVersionServiceServer (s : grpc.Server) : grpc.Server :=
  { services := s.services ++ ["version.VersionService"] }

/-- Go `cluster.RegisterClusterServiceServer(s, &cluster.Server{})` -/
def cluster.RegisterClusterServiceServer (s : grpc.Server) : grpc.Server :=
  { services := s.services ++ ["cluster.ClusterService"] }

/-- The two protocol servers whose `Serve` method `Run` calls. -/
inductive Server where
  | grpc (s : grpc.Server)
  | http (s : http.Server)
  deriving DecidableEq, Repr

/-- Go `type registerFunc func(ctx context.Context, mux *runtime.ServeMux, endpoint
string, opts []grpc.DialOption) error` -/
abbrev registerFunc : Type :=
  Context → runtime.ServeMux → String → List grpc.DialOption → Option Error

/-- What `root.Accept()` yields to the dispatch loop: a connection or an error. -/
inductive Accepted where
  | conn (c : Conn)
  | err (e : Error)
  deriving DecidableEq, Repr

/-- The actions of `Run` that the claims are about, in program order. -/
inductive Event where
  | Listen (network address : String)
  | cmuxNew (l : TCPListener)
  | register (ctx : Context) (mux : runtime.ServeMux) (endpoint : String)
      (opts : List grpc.DialOption)
  | Infof (msg : String)
  | goServe (s : Server) (l : Listener)
  | muxServe (m : cMux)
  | cancel

/-- The record of one connection that the multiplexer classified: the connection,
the read deadline armed for the probe (`none`: no deadline), and the sub-listener
whose channel received the connection (`none`: the connection was closed). -/
structure Sniff where
  conn : Conn
  readDeadline : Option Int
  target : Option muxListener
  deriving DecidableEq, Repr

/-- A worker: the server and the listener of a statement `go s.Serve(l)`, and the
way the call has ended (`none`: it is still serving; `some err`: it returned
`err`). -/
abbrev Worker : Type := Server × Listener × Option (Option Error)

/-- The world `Run` acts on: the actions so far, the workers started, the
connections the multiplexer classified, whether the multiplexer closed the root
listener, and the listeners that a worker closed as its `Serve` returned. -/
structure World where
  trace : List Event
  goroutines : List Worker
  sniffed : List Sniff
  rootClosed : Bool
  closedByWorker : List Listener

/-- The world before `Run`. -/
def World.init : World :=
  { trace := [], goroutines := [], sniffed := [], rootClosed := false, closedByWorker := [] }

/-- Appends an action to the trace. -/
def World.log (w : World) (e : Event) : World := { w with trace := w.trace ++ [e] }

/-- What lies outside `server.go`: the behaviour of the matchers of `cmux` on a
connection (`sat s c`: the matcher `s` accepts the connection `c`), the result of
`net.Listen`, the two gateway registration functions of
the packages `version` and `cluster`, `argocd.GetVersion()`, what the root
listener's `Accept` yields, call after call, during the dispatch loop (after the
last entry `Accept` blocks). -/
structure Env where
  sat : Matcher → Conn → Bool
  Listen : String → String → Except Error TCPListener
  RegisterVersionServiceHandlerFromEndpoint : registerFunc
  RegisterClusterServiceHandlerFromEndpoint : registerFunc
  GetVersion : String
  Accept : List Accepted

/-! ### The library `github.com/soheilhy/cmux`, as `Run` uses it

`server.go` imports the multiplexer and calls `cmux.New`, `Match` and `Serve`. The
definitions of this section follow the library's `cmux.go` (constructor, `Match`,
`handleErr`, `serve` and the loop of `Serve`); the matchers themselves
(`HTTP2HeaderField`, `HTTP1Fast`) are not modelled: what they say of a connection is
the parameter `sat`. -/

/-- Go `cmux.New(l)`: the library's constructor. It sets `bufLen: 1024`, an error
handler that returns `true`, no matchers, and `readTimeout: noTimeout`. -/
def cmux.New (l : TCPListener) : cMux :=
  { root := l, bufLen := 1024, errh := fun _ => true, sls := [], readTimeout := noTimeout }

/-- Go `m.Match(matchers...)`: makes a sub-listener over the root with a new channel,
appends `matchersListener{ss: matchers, l: ml}` to `m.sls` and returns the
sub-listener. -/
def cMux.Match (m : cMux) (matchers : List Matcher) : muxListener × cMux :=
  let ml : muxListener := { root := m.root, connc := m.sls.length }
  (ml, { m with sls := m.sls ++ [{ ss := matchers, l := ml }] })

/-- Go `ErrNotAMatch{c}`: a `net.Error` whose `Temporary()` is `true`. -/
def ErrNotAMatch (_c : Conn) : Error :=
  { msg := "mux: connection not matched by an matcher", temporary := some true }

/-- Go `m.handleErr(err)`: `false` when the handler `errh` returns `false`; otherwise
`Temporary()` of a `net.Error`, and `false` for any other error. -/
def cMux.handleErr (m : cMux) (err : Error) : Bool :=
  if !m.errh err then false
  else
    match err.temporary with
    | some t => t
    | none => false

/-- The read deadline `m.serve` arms on a connection before probing it:
`if m.readTimeout > noTimeout { c.SetReadDeadline(time.Now().Add(m.readTimeout)) }`,
as the duration after which a read fails. -/
def cMux.probeDeadline (m : cMux) : Option Int :=
  if m.readTimeout > noTimeout then some m.readTimeout else none

/-- Go `m.serve(c)`, the classification of one accepted connection: the entries of
`m.sls` are tried in order, and in each its matchers in order; the connection is
sent on the channel of the first entry one of whose matchers matches. When none
matches the connection is closed and `ErrNotAMatch` goes to `handleErr`; the root
listener is closed when that returns `false`. -/
def cMux.serve (m : cMux) (sat : Matcher → Conn → Bool) (c : Conn) (w : World) : World :=
  match m.sls.find? (fun sl => sl.ss.any (fun s => sat s c)) with
  | some sl =>
    { w with sniffed := w.sniffed ++ [{ conn := c, readDeadline := m.probeDeadline,
                                        target := some sl.l }] }
  | none =>
    let w1 : World :=
      { w with sniffed := w.sniffed ++ [{ conn := c, readDeadline := m.probeDeadline,
                                          target := none }] }
    if !m.handleErr (ErrNotAMatch c) then { w1 with rootClosed := true } else w1

/-- The loop of `m.Serve()` over what `Accept` yields: an error that `handleErr`
rejects is returned, an error it accepts is skipped, a connection is classified by
`serve` (in the library in a goroutine of its own; here in accept order). When
nothing more arrives the loop stays in `Accept`. -/
def cMux.loop (m : cMux) (sat : Matcher → Conn → Bool) :
    List Accepted → Exec World Error (Option Error)
  | [] => fun w => (Outcome.blocked, w)
  | Accepted.err e :: rest =>
    if !m.handleErr e then Exec.ret (some e) else cMux.loop m sat rest
  | Accepted.conn c :: rest => fun w => cMux.loop m sat rest (m.serve sat c w)

/-- Go `ErrListenerClosed` of `cmux`: the error of `Accept` on a sub-listener whose
channel is closed; its `Temporary()` is `false`. -/
def ErrListenerClosed : Error := { msg := "mux: listener closed", temporary := some false }

/-- A worker that serves a sub-listener of `m` and has not returned. -/
def cMux.serves (m : cMux) : Worker → Bool
  | (_, Listener.mux l, none) => m.sls.any (fun sl => decide (sl.l = l))
  | _ => false

/-- The deferred function of `m.Serve()`, which runs when the dispatch loop is over:
it closes the channel `connc` of every sub-listener in `m.sls`. `Accept` on such a
sub-listener then fails with `ErrListenerClosed`, so the `Serve` of the worker on it
returns that error, and closes the listener it was given as it returns (a
sub-listener embeds the root listener). In the library a worker sees the closed
channel at its next `Accept`; here at once. -/
def cMux.closeChannels (m : cMux) (w : World) : World :=
  { w with
    goroutines := w.goroutines.map
      (fun g => if m.serves g then (g.1, g.2.1, some (some ErrListenerClosed)) else g)
    closedByWorker := w.closedByWorker ++ (w.goroutines.filter m.serves).map (fun g => g.2.1) }

/-! ### `Run` and `mustRegisterGWHandler` -/

/-- Go `net.Listen(network, address)` -/
def net.Listen (env : Env) (network address : String) :
    Exec World Error (Except Error TCPListener) :=
  fun w => (Outcome.returned (env.Listen network address), w.log (Event.Listen network address))

/-- The call `register(ctx, mux, endpoint, opts)` of a `registerFunc`. -/
def registerFunc.call (register : registerFunc) (ctx : Context) (mux : runtime.ServeMux)
    (endpoint : String) (opts : List grpc.DialOption) : Exec World Error (Option Error) :=
  fun w => (Outcome.returned (register ctx mux endpoint opts),
    w.log (Event.register ctx mux endpoint opts))

/-- Go `log.Infof(format, args...)`, by the formatted message. -/
def log.Infof (msg : String) : Exec World Error Unit :=
  fun w => (Outcome.returned (), w.log (Event.Infof msg))

/-- The statement `go s.Serve(l)`: the call starts in a new goroutine and the
statement is over at once; Go discards what the call returns. The worker serves:
`Serve` of `grpc.Server` and of `http.Server` accept from `l` in a loop and return
only when `Accept` on `l` fails (`Run` keeps `grpcS` and `httpS` to itself, so nothing
stops a server or shuts it down). -/
def goServe (s : Server) (l : Listener) : Exec World Error Unit :=
  fun w => (Outcome.returned (),
    { w.log (Event.goServe s l) with goroutines := w.goroutines ++ [(s, l, none)] })

/-- The call `m.Serve()`: the dispatch loop, and the deferred function of `Serve`
once the loop is over. -/
def cMux.Serve (m : cMux) (env : Env) : Exec World Error (Option Error) :=
  Exec.withDefer m.closeChannels
    (fun w => cMux.loop m env.sat env.Accept (w.log (Event.muxServe m)))

/-- The deferred `cancel()` of the context. -/
def cancel (w : World) : World := w.log Event.cancel

/-- Go `mustRegisterGWHandler`: calls `register` and panics with its error when that is
not nil. -/
def mustRegisterGWHandler (register : registerFunc) (ctx : Context) (mux : runtime.ServeMux)
    (endpoint : String) (opts : List grpc.DialOption) : Exec World Error Unit := do
  let err ← registerFunc.call register ctx mux endpoint opts
  match err with
  | some e => Exec.panic (PanicValue.err e)
  | none => pure ()

/-- Go `(a *ArgoCDServer) Run()`, statement by statement. -/
def Run (env : Env) : Exec World Error Unit :=
  let ctx := Context.Background
  let ctx := Context.WithCancel ctx
  Exec.withDefer cancel do
    let r ← net.Listen env "tcp" (":" ++ toString port)
    match r with
    | Except.error err => Exec.panic (PanicValue.err err)
    | Except.ok conn =>
      let m ← (fun w => (Outcome.returned (cmux.New conn), w.log (Event.cmuxNew conn)) :
        Exec World Error cMux)
      let (grpcL, m) := m.Match [Matcher.HTTP2HeaderField "content-type" "application/grpc"]
      let (httpL, m) := m.Match [Matcher.HTTP1Fast []]
      let grpcS := grpc.NewServer
      let grpcS := version.RegisterVersionServiceServer grpcS
      let grpcS := cluster.RegisterClusterServiceServer grpcS
      let mux := http.NewServeMux
      let gwMuxOpts := runtime.ServeMuxOption.WithMarshalerOption runtime.MIMEWildcard "protoutil.JSONPb"
      let gwmux := runtime.NewServeMux [gwMuxOpts]
      let mux := mux.Handle "/" gwmux
      let dOpts := [grpc.DialOption.WithInsecure]
      mustRegisterGWHandler env.RegisterVersionServiceHandlerFromEndpoint ctx gwmux endpoint dOpts
      mustRegisterGWHandler env.RegisterClusterServiceHandlerFromEndpoint ctx gwmux endpoint dOpts
      let httpS : http.Server := { Addr := endpoint, Handler := mux }
      log.Infof ("argocd " ++ env.GetVersion ++ " serving on port " ++ toString port)
      goServe (Server.grpc grpcS) (Listener.mux grpcL)
      goServe (Server.http httpS) (Listener.mux httpL)
      let err ← m.Serve env
      match err with
      | some e => Exec.panic (PanicValue.err e)
      | none => pure ()

end server

/-! ### The values of the local variables of `Run`

They are named here to state the theorems; `Run_started` shows that they are what
`Run` computes. -/

namespace server

open Go

/-- The local `ctx` of `Run` after `context.WithCancel`. -/
def Run.ctx : Context := Context.WithCancel Context.Background

/-- The local `gwmux` of `Run`. -/
def Run.gwmux : runtime.ServeMux :=
  runtime.NewServeMux
    [runtime.ServeMuxOption.WithMarshalerOption runtime.MIMEWildcard "protoutil.JSONPb"]

/-- The local `dOpts` of `Run`. -/
def Run.dOpts : List grpc.DialOption := [grpc.DialOption.WithInsecure]

/-- The matcher of the first `Match` call of `Run`. -/
def Run.grpcRule : Matcher := Matcher.HTTP2HeaderField "content-type" "application/grpc"

/-- The matcher of the second `Match` call of `Run`. -/
def Run.httpRule : Matcher := Matcher.HTTP1Fast []

/-- The local `grpcL` of `Run`: what the first `Match` call returns. -/
def Run.grpcL (conn : TCPListener) : muxListener :=
  ((cmux.New conn).Match [Run.grpcRule]).1

/-- The local `httpL` of `Run`: what the second `Match` call returns. -/
def Run.httpL (conn : TCPListener) : muxListener :=
  (((cmux.New conn).Match [Run.grpcRule]).2.Match [Run.httpRule]).1

/-- The multiplexer `m` of `Run` after its two `Match` calls. -/
def Run.sniffer (conn : TCPListener) : cMux :=
  (((cmux.New conn).Match [Run.grpcRule]).2.Match [Run.httpRule]).2

/-- The local `grpcS` of `Run` after the two service registrations. -/
def Run.grpcS : grpc.Server :=
  cluster.RegisterClusterServiceServer (version.RegisterVersionServiceServer grpc.NewServer)

/-- The local `httpS` of `Run`. -/
def Run.httpS : http.Server :=
  { Addr := endpoint, Handler := http.NewServeMux.Handle "/" Run.gwmux }

/-- Startup succeeds: `net.Listen` returns the socket `conn` and both gateway
registration functions return nil on the arguments `Run` passes. -/
def StartupOk (env : Env) (conn : TCPListener) : Prop :=
  env.Listen "tcp" (":" ++ toString port) = Except.ok conn ∧
  env.RegisterVersionServiceHandlerFromEndpoint Run.ctx Run.gwmux endpoint Run.dOpts = none ∧
  env.RegisterClusterServiceHandlerFromEndpoint Run.ctx Run.gwmux endpoint Run.dOpts = none

/-- Startup fails with the error `e`: `net.Listen` returns `e`, or the socket opens
and the first registration function that returns a non-nil error returns `e`. -/
def StartupFails (env : Env) (e : Error) : Prop :=
  env.Listen "tcp" (":" ++ toString port) = Except.error e ∨
  ((∃ conn, env.Listen "tcp" (":" ++ toString port) = Except.ok conn) ∧
    (env.RegisterVersionServiceHandlerFromEndpoint Run.ctx Run.gwmux endpoint Run.dOpts = some e ∨
     (env.RegisterVersionServiceHandlerFromEndpoint Run.ctx Run.gwmux endpoint Run.dOpts = none ∧
      env.RegisterClusterServiceHandlerFromEndpoint Run.ctx Run.gwmux endpoint Run.dOpts
        = some e)))

/-- The actions of `Run` up to and including the second registration. -/
def Run.wired (conn : TCPListener) : List Event :=
  [Event.Listen "tcp" (":" ++ toString port), Event.cmuxNew conn,
   Event.register Run.ctx Run.gwmux endpoint Run.dOpts,
   Event.register Run.ctx Run.gwmux endpoint Run.dOpts]

/-- The world in which the dispatch loop of `m.Serve()` starts when `Run` starts in
`World.init` and startup succeeds. -/
def Run.started (env : Env) (conn : TCPListener) : World :=
  { trace := Run.wired conn ++
      [Event.Infof ("argocd " ++ env.GetVersion ++ " serving on port " ++ toString port),
       Event.goServe (Server.grpc Run.grpcS) (Listener.mux (Run.grpcL conn)),
       Event.goServe (Server.http Run.httpS) (Listener.mux (Run.httpL conn)),
       Event.muxServe (Run.sniffer conn)]
    goroutines := [(Server.grpc Run.grpcS, Listener.mux (Run.grpcL conn), none),
                   (Server.http Run.httpS, Listener.mux (Run.httpL conn), none)]
    sniffed := []
    rootClosed := false
    closedByWorker := [] }

/-- The statements of `Run` after `m.Serve()` and the deferred `cancel()`, on the way
the call of `m.Serve()` ends. -/
def Run.finish : Outcome Error (Option Error) × World → Outcome Error Unit × World
  | (Outcome.returned (some e), w) => (Outcome.panicked (PanicValue.err e), cancel w)
  | (Outcome.returned none, w) => (Outcome.returned (), cancel w)
  | (Outcome.panicked p, w) => (Outcome.panicked p, cancel w)
  | (Outcome.blocked, w) => (Outcome.blocked, w)

/-- The calls of a `Serve` method among the actions. -/
def Event.isServe : Event → Bool
  | Event.goServe _ _ => true
  | Event.muxServe _ => true
  | _ => false

/-- The calls of `net.Listen` among the actions. -/
def Event.isListen : Event → Bool
  | Event.Listen _ _ => true
  | _ => false

/-- The calls of `cmux.New` among the actions. -/
def Event.isCmuxNew : Event → Bool
  | Event.cmuxNew _ => true
  | _ => false

/-- An accept error that the dispatch loop of `m` skips. -/
def cMux.skips (m : cMux) : Accepted → Prop
  | Accepted.conn _ => True
  | Accepted.err e => m.handleErr e = true

end server

namespace server

open Go

/-- The sub-listener `m.serve` picks for a connection: that of the first entry of
`m.sls` one of whose matchers accepts it. -/
def cMux.classify (m : cMux) (sat : Matcher → Conn → Bool) (c : Conn) : Option muxListener :=
  (m.sls.find? (fun sl => sl.ss.any (fun s => sat s c))).map (fun sl => sl.l)

/-- The world after the dispatch loop of `m` has gone through the accept results
`as`, when none of them ends the loop. -/
def cMux.serveAll (m : cMux) (sat : Matcher → Conn → Bool) : List Accepted → World → World
  | [], w => w
  | Accepted.err _ :: rest, w => cMux.serveAll m sat rest w
  | Accepted.conn c :: rest, w => cMux.serveAll m sat rest (m.serve sat c w)

end server

/-! ### Concrete environments -/

namespace server

namespace Example

/-- The socket that `net.Listen("tcp", ":8080")` opens. -/
def socket : TCPListener := { network := "tcp", address := ":8080" }

/-- A behaviour of the matchers for the examples: the HTTP/2 header-field matcher
accepts a connection whose first byte is 80 (`P`, the first byte of the HTTP/2
preface) and the HTTP/1 matcher one whose first byte is 71 (`G`, as in `GET`). -/
def sat : Matcher → Conn → Bool
  | Matcher.HTTP2HeaderField _ _, c => c.bytes.head? == some 80
  | Matcher.HTTP1Fast _, c => c.bytes.head? == some 71

/-- A connection that starts with `PRI`. -/
def rpcConn : Conn := { id := 1, bytes := [80, 82, 73] }

/-- A connection that starts with `GET`. -/
def httpConn : Conn := { id := 2, bytes := [71, 69, 84] }

/-- A connection that starts with a TLS handshake record. -/
def otherConn : Conn := { id := 3, bytes := [22, 3, 1] }

/-- The error of `Accept` on a closed listener; it is not a temporary one. -/
def closed : Error := { msg := "use of closed network connection", temporary := some false }

/-- The error of `net.Listen` on a port that is taken. -/
def inUse : Error := { msg := "listen tcp :8080: bind: address already in use", temporary := none }

/-- An error of a gateway registration function. -/
def dialFailed : Error := { msg := "failed to dial localhost:8080", temporary := none }

/-- Startup succeeds and three connections arrive. -/
def env : Env :=
  { sat := sat
    Listen := fun network address => Except.ok { network := network, address := address }
    RegisterVersionServiceHandlerFromEndpoint := fun _ _ _ _ => none
    RegisterClusterServiceHandlerFromEndpoint := fun _ _ _ _ => none
    GetVersion := "0.1.0"
    Accept := [Accepted.conn rpcConn, Accepted.conn otherConn, Accepted.conn httpConn] }

/-- The port is taken. -/
def envListenFails : Env := { env with Listen := fun _ _ => Except.error inUse }

/-- The second gateway registration fails. -/
def envRegisterFails : Env :=
  { env with RegisterClusterServiceHandlerFromEndpoint := fun _ _ _ _ => some dialFailed }

/-- Startup succeeds and the second `Accept` fails for good. -/
def envAcceptFails : Env :=
  { env with Accept := [Accepted.conn rpcConn, Accepted.err closed, Accepted.conn httpConn] }

end Example

end server

/-! ## Theorems -/

namespace server
open Go

theorem Run_listen_error (env : Env) (e : Error)
    (h : env.Listen "tcp" (":" ++ toString port) = Except.error e) :
    Run env World.init = (Outcome.panicked (PanicValue.err e),
      { trace := [Event.Listen "tcp" (":" ++ toString port), Event.cancel], goroutines := [],
        sniffed := [], rootClosed := false, closedByWorker := [] }) := by
  simp [Run, Exec.withDefer, bind, Exec.seq, net.Listen, h, Exec.panic, cancel, World.log,
    World.init]

theorem Run_version_error (env : Env) (conn : TCPListener) (e : Error)
    (hl : env.Listen "tcp" (":" ++ toString port) = Except.ok conn)
    (hv : env.RegisterVersionServiceHandlerFromEndpoint Run.ctx Run.gwmux endpoint Run.dOpts
      = some e) :
    Run env World.init = (Outcome.panicked (PanicValue.err e),
      { trace := [Event.Listen "tcp" (":" ++ toString port), Event.cmuxNew conn,
          Event.register Run.ctx Run.gwmux endpoint Run.dOpts, Event.cancel],
        goroutines := [], sniffed := [], rootClosed := false, closedByWorker := [] }) := by
  unfold Run.ctx Run.gwmux Run.dOpts at hv
  simp [Run, Exec.withDefer, bind, Exec.seq, net.Listen, hl, hv, Exec.panic, cancel, World.log,
    World.init, mustRegisterGWHandler, registerFunc.call, Run.ctx, Run.gwmux, Run.dOpts]

theorem Run_cluster_error (env : Env) (conn : TCPListener) (e : Error)
    (hl : env.Listen "tcp" (":" ++ toString port) = Except.ok conn)
    (hv : env.RegisterVersionServiceHandlerFromEndpoint Run.ctx Run.gwmux endpoint Run.dOpts
      = none)
    (hc : env.RegisterClusterServiceHandlerFromEndpoint Run.ctx Run.gwmux endpoint Run.dOpts
      = some e) :
    Run env World.init = (Outcome.panicked (PanicValue.err e),
      { trace := Run.wired conn ++ [Event.cancel],
        goroutines := [], sniffed := [], rootClosed := false, closedByWorker := [] }) := by
  unfold Run.ctx Run.gwmux Run.dOpts at hv hc
  simp [Run, Exec.withDefer, bind, Exec.seq, net.Listen, hl, hv, hc, Exec.panic, cancel,
    World.log, World.init, mustRegisterGWHandler, registerFunc.call, Run.ctx, Run.gwmux,
    Run.dOpts, Run.wired, pure, Exec.ret]

theorem Run_started (env : Env) (conn : TCPListener) (h : StartupOk env conn) :
    Run env World.init =
      Run.finish (Exec.withDefer (Run.sniffer conn).closeChannels
        (cMux.loop (Run.sniffer conn) env.sat env.Accept) (Run.started env conn)) := by
  obtain ⟨hl, hv, hc⟩ := h
  unfold Run.ctx Run.gwmux Run.dOpts at hv hc
  simp only [Run, Exec.withDefer, bind, Exec.seq, net.Listen, hl, hv, hc, Exec.panic, cancel,
    World.log, World.init, mustRegisterGWHandler, registerFunc.call, pure, Exec.ret, log.Infof,
    goServe, cMux.Serve, List.nil_append, List.cons_append, List.append_assoc]
  simp only [Run.sniffer, Run.started, Run.wired, Run.grpcL, Run.httpL, Run.grpcS, Run.httpS,
    Run.gwmux, Run.ctx, Run.dOpts, Run.grpcRule, Run.httpRule, List.cons_append,
    List.nil_append]
  generalize cMux.loop _ env.sat env.Accept _ = r
  rcases r with ⟨(_ | _) | _ | _, w⟩ <;> simp [Run.finish, cancel, World.log, Exec.ret, Exec.panic]

theorem defer_close (m : cMux) (body : Exec World Error (Option Error)) (w : World) :
    (Exec.withDefer m.closeChannels body w).1 = (body w).1 ∧
    (Exec.withDefer m.closeChannels body w).2.trace = (body w).2.trace ∧
    (Exec.withDefer m.closeChannels body w).2.sniffed = (body w).2.sniffed ∧
    (Exec.withDefer m.closeChannels body w).2.rootClosed = (body w).2.rootClosed := by
  unfold Exec.withDefer
  rcases body w with ⟨_ | _ | _, w1⟩ <;> simp [cMux.closeChannels]

end server

namespace server
open Go

theorem serve_sniffed (m : cMux) (sat : Matcher → Conn → Bool) (c : Conn) (w : World) :
    (m.serve sat c w).sniffed =
      w.sniffed ++ [{ conn := c, readDeadline := m.probeDeadline, target := m.classify sat c }] := by
  unfold cMux.serve cMux.classify
  cases h : m.sls.find? (fun sl => sl.ss.any (fun s => sat s c)) with
  | none => by_cases hh : m.handleErr (ErrNotAMatch c) = true <;> simp [hh]
  | some sl => simp

theorem serve_trace (m : cMux) (sat : Matcher → Conn → Bool) (c : Conn) (w : World) :
    (m.serve sat c w).trace = w.trace ∧ (m.serve sat c w).goroutines = w.goroutines := by
  unfold cMux.serve
  cases h : m.sls.find? (fun sl => sl.ss.any (fun s => sat s c)) with
  | none => by_cases hh : m.handleErr (ErrNotAMatch c) = true <;> simp [hh]
  | some sl => simp

theorem loop_trace (m : cMux) (sat : Matcher → Conn → Bool) (l : List Accepted) (w : World) :
    (cMux.loop m sat l w).2.trace = w.trace ∧
      (cMux.loop m sat l w).2.goroutines = w.goroutines := by
  induction l generalizing w with
  | nil => simp [cMux.loop]
  | cons a rest ih =>
    cases a with
    | conn c =>
      simp only [cMux.loop]
      rw [(ih _).1, (ih _).2]
      exact serve_trace m sat c w
    | err e =>
      by_cases hh : m.handleErr e = true
      · simp only [cMux.loop, hh]
        exact ih w
      · simp [cMux.loop, hh, Exec.ret]

theorem loop_outcome_world (m : cMux) (sat : Matcher → Conn → Bool) (l : List Accepted)
    (w w' : World) : (cMux.loop m sat l w).1 = (cMux.loop m sat l w').1 := by
  induction l generalizing w w' with
  | nil => simp [cMux.loop]
  | cons a rest ih =>
    cases a with
    | conn c =>
      simp only [cMux.loop]
      exact ih _ _
    | err e =>
      by_cases hh : m.handleErr e = true
      · simp only [cMux.loop, hh]
        exact ih w w'
      · simp [cMux.loop, hh, Exec.ret]

theorem loop_append (m : cMux) (sat : Matcher → Conn → Bool) (pre rest : List Accepted)
    (w : World) (hpre : ∀ a ∈ pre, m.skips a) :
    cMux.loop m sat (pre ++ rest) w = cMux.loop m sat rest (m.serveAll sat pre w) := by
  induction pre generalizing w with
  | nil => simp [cMux.serveAll]
  | cons a pre ih =>
    have hpre' : ∀ b ∈ pre, m.skips b := fun b hb => hpre b (List.mem_cons_of_mem a hb)
    cases a with
    | conn c =>
      simp only [List.cons_append, cMux.loop, cMux.serveAll]
      exact ih _ hpre'
    | err e =>
      have he : m.handleErr e = true := hpre (Accepted.err e) (List.mem_cons_self _ _)
      simp only [List.cons_append, cMux.loop, cMux.serveAll, he]
      exact ih w hpre'

theorem loop_sniffed_sub (m : cMux) (sat : Matcher → Conn → Bool) (l : List Accepted)
    (w : World) (s : Sniff) (hs : s ∈ w.sniffed) : s ∈ (cMux.loop m sat l w).2.sniffed := by
  induction l generalizing w with
  | nil => simpa [cMux.loop] using hs
  | cons a rest ih =>
    cases a with
    | conn c =>
      simp only [cMux.loop]
      apply ih
      rw [serve_sniffed]
      exact List.mem_append_left _ hs
    | err e =>
      by_cases hh : m.handleErr e = true
      · simp only [cMux.loop, hh]
        exact ih w hs
      · simpa [cMux.loop, hh, Exec.ret] using hs

theorem loop_sniffed_mem (m : cMux) (sat : Matcher → Conn → Bool) (l : List Accepted)
    (w : World) (s : Sniff) (hs : s ∈ (cMux.loop m sat l w).2.sniffed) :
    s ∈ w.sniffed ∨ ∃ c, Accepted.conn c ∈ l ∧
      s = { conn := c, readDeadline := m.probeDeadline, target := m.classify sat c } := by
  induction l generalizing w with
  | nil => left; simpa [cMux.loop] using hs
  | cons a rest ih =>
    cases a with
    | conn c =>
      simp only [cMux.loop] at hs
      rcases ih _ hs with h | ⟨c', hc', hs'⟩
      · rw [serve_sniffed] at h
        rcases List.mem_append.1 h with h | h
        · exact Or.inl h
        · right
          exact ⟨c, List.mem_cons_self _ _, by simpa using h⟩
      · exact Or.inr ⟨c', List.mem_cons_of_mem _ hc', hs'⟩
    | err e =>
      by_cases hh : m.handleErr e = true
      · simp only [cMux.loop, hh] at hs
        rcases ih w hs with h | ⟨c', hc', hs'⟩
        · exact Or.inl h
        · exact Or.inr ⟨c', List.mem_cons_of_mem _ hc', hs'⟩
      · left
        simpa [cMux.loop, hh, Exec.ret] using hs

theorem loop_outcome (m : cMux) (sat : Matcher → Conn → Bool) (l : List Accepted) (w : World) :
    (cMux.loop m sat l w).1 = Outcome.blocked ∨
      ∃ e, Accepted.err e ∈ l ∧ m.handleErr e = false ∧
        (cMux.loop m sat l w).1 = Outcome.returned (some e) := by
  induction l generalizing w with
  | nil => left; simp [cMux.loop]
  | cons a rest ih =>
    cases a with
    | conn c =>
      simp only [cMux.loop]
      rcases ih (m.serve sat c w) with h | ⟨e, he, hf, h⟩
      · exact Or.inl h
      · exact Or.inr ⟨e, List.mem_cons_of_mem _ he, hf, h⟩
    | err e =>
      by_cases hh : m.handleErr e = true
      · simp only [cMux.loop, hh]
        rcases ih w with h | ⟨e', he, hf, h⟩
        · exact Or.inl h
        · exact Or.inr ⟨e', List.mem_cons_of_mem _ he, hf, h⟩
      · right
        exact ⟨e, List.mem_cons_self _ _, by simpa using hh, by simp [cMux.loop, hh, Exec.ret]⟩

theorem finish_sniffed (r : Outcome Error (Option Error) × World) :
    (Run.finish r).2.sniffed = r.2.sniffed ∧ (Run.finish r).2.goroutines = r.2.goroutines := by
  rcases r with ⟨(_ | _) | _ | _, w⟩ <;> simp [Run.finish, cancel, World.log]

theorem finish_trace (r : Outcome Error (Option Error) × World) :
    (Run.finish r).2.trace = r.2.trace ∨ (Run.finish r).2.trace = r.2.trace ++ [Event.cancel] := by
  rcases r with ⟨(_ | _) | _ | _, w⟩ <;> simp [Run.finish, cancel, World.log]

end server

namespace apiclient
open Go

/-- C1: each of the ten unary methods of the adapter over a delegate `d` is the
same Go call as the same-named method of `d` on the same context and request: it
ends the same way (same response and error, same panic, or no return) and leaves the
delegate in the same state, so the adapter fails exactly when the delegate fails.
Over a recording delegate the call adds exactly one invocation to the log, that of
the same-named method with the same context and request: the delegate is invoked
once and no other method of it is invoked. -/
theorem unary_methods_forward (S : Schema) (σ : Type) (d : WorkflowServiceServer S σ)
    (ctx : S.Context) (opts : List S.CallOption) :
    let c : argoKubeWorkflowServiceClient S σ := { delegate := d }
    let r : argoKubeWorkflowServiceClient S (σ × List (DelegateCall S)) :=
      { delegate := recording d }
    ((∀ req, c.CreateWorkflow ctx req opts = d.CreateWorkflow ctx req) ∧
     (∀ req, c.GetWorkflow ctx req opts = d.GetWorkflow ctx req) ∧
     (∀ req, c.ListWorkflows ctx req opts = d.ListWorkflows ctx req) ∧
     (∀ req, c.DeleteWorkflow ctx req opts = d.DeleteWorkflow ctx req) ∧
     (∀ req, c.RetryWorkflow ctx req opts = d.RetryWorkflow ctx req) ∧
     (∀ req, c.ResubmitWorkflow ctx req opts = d.ResubmitWorkflow ctx req) ∧
     (∀ req, c.ResumeWorkflow ctx req opts = d.ResumeWorkflow ctx req) ∧
     (∀ req, c.SuspendWorkflow ctx req opts = d.SuspendWorkflow ctx req) ∧
     (∀ req, c.TerminateWorkflow ctx req opts = d.TerminateWorkflow ctx req) ∧
     (∀ req, c.LintWorkflow ctx req opts = d.LintWorkflow ctx req)) ∧
    ((∀ req s log, r.CreateWorkflow ctx req opts (s, log) =
        ((d.CreateWorkflow ctx req s).1,
          ((d.CreateWorkflow ctx req s).2, log ++ [DelegateCall.CreateWorkflow ctx req]))) ∧
     (∀ req s log, r.GetWorkflow ctx req opts (s, log) =
        ((d.GetWorkflow ctx req s).1,
          ((d.GetWorkflow ctx req s).2, log ++ [DelegateCall.GetWorkflow ctx req]))) ∧
     (∀ req s log, r.ListWorkflows ctx req opts (s, log) =
        ((d.ListWorkflows ctx req s).1,
          ((d.ListWorkflows ctx req s).2, log ++ [DelegateCall.ListWorkflows ctx req]))) ∧
     (∀ req s log, r.DeleteWorkflow ctx req opts (s, log) =
        ((d.DeleteWorkflow ctx req s).1,
          ((d.DeleteWorkflow ctx req s).2, log ++ [DelegateCall.DeleteWorkflow ctx req]))) ∧
     (∀ req s log, r.RetryWorkflow ctx req opts (s, log) =
        ((d.RetryWorkflow ctx req s).1,
          ((d.RetryWorkflow ctx req s).2, log ++ [DelegateCall.RetryWorkflow ctx req]))) ∧
     (∀ req s log, r.ResubmitWorkflow ctx req opts (s, log) =
        ((d.ResubmitWorkflow ctx req s).1,
          ((d.ResubmitWorkflow ctx req s).2, log ++ [DelegateCall.ResubmitWorkflow ctx req]))) ∧
     (∀ req s log, r.ResumeWorkflow ctx req opts (s, log) =
        ((d.ResumeWorkflow ctx req s).1,
          ((d.ResumeWorkflow ctx req s).2, log ++ [DelegateCall.ResumeWorkflow ctx req]))) ∧
     (∀ req s log, r.SuspendWorkflow ctx req opts (s, log) =
        ((d.SuspendWorkflow ctx req s).1,
          ((d.SuspendWorkflow ctx req s).2, log ++ [DelegateCall.SuspendWorkflow ctx req]))) ∧
     (∀ req s log, r.TerminateWorkflow ctx req opts (s, log) =
        ((d.TerminateWorkflow ctx req s).1,
          ((d.TerminateWorkflow ctx req s).2, log ++ [DelegateCall.TerminateWorkflow ctx req]))) ∧
     (∀ req s log, r.LintWorkflow ctx req opts (s, log) =
        ((d.LintWorkflow ctx req s).1,
          ((d.LintWorkflow ctx req s).2, log ++ [DelegateCall.LintWorkflow ctx req])))) := by
  refine ⟨⟨?_, ?_, ?_, ?_, ?_, ?_, ?_, ?_, ?_, ?_⟩, ⟨?_, ?_, ?_, ?_, ?_, ?_, ?_, ?_, ?_, ?_⟩⟩
  all_goals intros
  all_goals rfl

/-- C2: both streaming methods of the adapter, `WatchWorkflows` and `PodLogs`,
panic with "not implemented" on every delegate, context, request and call options:
the call does not return (no stream handle and no error value comes back), the
state of the delegate is unchanged and, over a recording delegate, no invocation is
logged. -/
theorem streaming_methods_panic (S : Schema) (σ : Type) (d : WorkflowServiceServer S σ)
    (ctx : S.Context) (opts : List S.CallOption) :
    let c : argoKubeWorkflowServiceClient S σ := { delegate := d }
    let r : argoKubeWorkflowServiceClient S (σ × List (DelegateCall S)) :=
      { delegate := recording d }
    (∀ req s, c.WatchWorkflows ctx req opts s =
        (Outcome.panicked (PanicValue.str "not implemented"), s)) ∧
    (∀ req s, c.PodLogs ctx req opts s =
        (Outcome.panicked (PanicValue.str "not implemented"), s)) ∧
    (∀ req s v, (c.WatchWorkflows ctx req opts s).1 ≠ Outcome.returned v) ∧
    (∀ req s v, (c.PodLogs ctx req opts s).1 ≠ Outcome.returned v) ∧
    (∀ req s log, r.WatchWorkflows ctx req opts (s, log) =
        (Outcome.panicked (PanicValue.str "not implemented"), (s, log))) ∧
    (∀ req s log, r.PodLogs ctx req opts (s, log) =
        (Outcome.panicked (PanicValue.str "not implemented"), (s, log))) := by
  refine ⟨?_, ?_, ?_, ?_, ?_, ?_⟩
  · intros; rfl
  · intros; rfl
  · intro req s v h
    simp [argoKubeWorkflowServiceClient.WatchWorkflows, Exec.panic] at h
  · intro req s v h
    simp [argoKubeWorkflowServiceClient.PodLogs, Exec.panic] at h
  · intros; rfl
  · intros; rfl

/-- C6: every one of the twelve methods of the adapter is the same Go call for
any two lists of call options: the response, the error, the panic and the calls made
on the delegate (the delegate may be a recording one) do not depend on them. -/
theorem call_options_ignored (S : Schema) (σ : Type) (d : WorkflowServiceServer S σ)
    (ctx : S.Context) (opts1 opts2 : List S.CallOption) :
    let c : argoKubeWorkflowServiceClient S σ := { delegate := d }
    (∀ req, c.CreateWorkflow ctx req opts1 = c.CreateWorkflow ctx req opts2) ∧
    (∀ req, c.GetWorkflow ctx req opts1 = c.GetWorkflow ctx req opts2) ∧
    (∀ req, c.ListWorkflows ctx req opts1 = c.ListWorkflows ctx req opts2) ∧
    (∀ req, c.WatchWorkflows ctx req opts1 = c.WatchWorkflows ctx req opts2) ∧
    (∀ req, c.DeleteWorkflow ctx req opts1 = c.DeleteWorkflow ctx req opts2) ∧
    (∀ req, c.RetryWorkflow ctx req opts1 = c.RetryWorkflow ctx req opts2) ∧
    (∀ req, c.ResubmitWorkflow ctx req opts1 = c.ResubmitWorkflow ctx req opts2) ∧
    (∀ req, c.ResumeWorkflow ctx req opts1 = c.ResumeWorkflow ctx req opts2) ∧
    (∀ req, c.SuspendWorkflow ctx req opts1 = c.SuspendWorkflow ctx req opts2) ∧
    (∀ req, c.TerminateWorkflow ctx req opts1 = c.TerminateWorkflow ctx req opts2) ∧
    (∀ req, c.LintWorkflow ctx req opts1 = c.LintWorkflow ctx req opts2) ∧
    (∀ req, c.PodLogs ctx req opts1 = c.PodLogs ctx req opts2) := by
  refine ⟨?_, ?_, ?_, ?_, ?_, ?_, ?_, ?_, ?_, ?_, ?_, ?_⟩
  all_goals intros
  all_goals rfl

end apiclient

namespace server
open Go

theorem sniffer_classify (conn : TCPListener) (sat : Matcher → Conn → Bool) (c : Conn) :
    (Run.sniffer conn).classify sat c =
      if sat Run.grpcRule c = true then some (Run.grpcL conn)
      else if sat Run.httpRule c = true then some (Run.httpL conn) else none := by
  by_cases h1 : sat Run.grpcRule c = true
  · simp [cMux.classify, Run.sniffer, cMux.Match, cmux.New, Run.grpcL, List.find?, h1]
  · by_cases h2 : sat Run.httpRule c = true
    · simp [cMux.classify, Run.sniffer, cMux.Match, cmux.New, Run.httpL, List.find?, h1, h2]
    · simp [cMux.classify, Run.sniffer, cMux.Match, cmux.New, List.find?, h1, h2]

theorem sniffer_handleErr (conn : TCPListener) (e : Error) :
    (Run.sniffer conn).handleErr e = (e.temporary == some true) := by
  rcases e with ⟨msg, _ | _ | _⟩ <;>
    simp [cMux.handleErr, Run.sniffer, cMux.Match, cmux.New]

theorem sniffer_probeDeadline (conn : TCPListener) :
    (Run.sniffer conn).readTimeout = noTimeout ∧ (Run.sniffer conn).probeDeadline = none := by
  simp [cMux.probeDeadline, Run.sniffer, cMux.Match, cmux.New, noTimeout]

theorem sniffer_serve (conn : TCPListener) (sat : Matcher → Conn → Bool) (c : Conn) (w : World) :
    (Run.sniffer conn).serve sat c w =
      { w with sniffed := w.sniffed ++
          [{ conn := c, readDeadline := none, target := (Run.sniffer conn).classify sat c }] } := by
  have hd := (sniffer_probeDeadline conn).2
  have he : (Run.sniffer conn).handleErr (ErrNotAMatch c) = true := by
    rw [sniffer_handleErr]; rfl
  unfold cMux.serve cMux.classify
  cases h : (Run.sniffer conn).sls.find? (fun sl => sl.ss.any (fun s => sat s c)) with
  | none => simp [he, hd]
  | some sl => simp [hd]

theorem loop_rootClosed (conn : TCPListener) (sat : Matcher → Conn → Bool) (l : List Accepted)
    (w : World) : (cMux.loop (Run.sniffer conn) sat l w).2.rootClosed = w.rootClosed := by
  induction l generalizing w with
  | nil => simp [cMux.loop]
  | cons a rest ih =>
    cases a with
    | conn c =>
      simp only [cMux.loop]
      rw [ih, sniffer_serve]
    | err e =>
      by_cases hh : (Run.sniffer conn).handleErr e = true
      · simp only [cMux.loop, hh]
        exact ih w
      · simp [cMux.loop, hh, Exec.ret]

theorem loop_outcome_remove (m : cMux) (sat : Matcher → Conn → Bool) (pre post : List Accepted)
    (c : Conn) (w : World) :
    (cMux.loop m sat (pre ++ Accepted.conn c :: post) w).1 =
      (cMux.loop m sat (pre ++ post) w).1 := by
  induction pre generalizing w with
  | nil =>
    simp only [List.nil_append, cMux.loop]
    exact loop_outcome_world m sat post _ _
  | cons a pre ih =>
    cases a with
    | conn c' =>
      simp only [List.cons_append, cMux.loop]
      exact ih _
    | err e =>
      by_cases hh : m.handleErr e = true
      · simp only [List.cons_append, cMux.loop, hh]
        exact ih w
      · simp [cMux.loop, hh, Exec.ret]

theorem finish_outcome (r : Outcome Error (Option Error) × World) :
    (Run.finish r).1 =
      match r.1 with
      | Outcome.returned (some e) => Outcome.panicked (PanicValue.err e)
      | Outcome.returned none => Outcome.returned ()
      | Outcome.panicked p => Outcome.panicked p
      | Outcome.blocked => Outcome.blocked := by
  rcases r with ⟨(_ | _) | _ | _, w⟩ <;> simp [Run.finish]

theorem Run_started_trace (env : Env) (conn : TCPListener) (h : StartupOk env conn) :
    (Run env World.init).2.trace = (Run.started env conn).trace ∨
      (Run env World.init).2.trace = (Run.started env conn).trace ++ [Event.cancel] := by
  rw [Run_started env conn h]
  rcases finish_trace (Exec.withDefer (Run.sniffer conn).closeChannels
      (cMux.loop (Run.sniffer conn) env.sat env.Accept) (Run.started env conn)) with ht | ht
  · rw [ht, (defer_close _ _ _).2.1, (loop_trace _ _ _ _).1]
    exact Or.inl rfl
  · rw [ht, (defer_close _ _ _).2.1, (loop_trace _ _ _ _).1]
    exact Or.inr rfl

theorem Run_started_filter (env : Env) (conn : TCPListener) (h : StartupOk env conn)
    (p : Event → Bool) (hp : p Event.cancel = false) :
    (Run env World.init).2.trace.filter p = (Run.started env conn).trace.filter p := by
  rcases Run_started_trace env conn h with ht | ht
  · rw [ht]
  · rw [ht, List.filter_append]
    simp [hp]

theorem Run_started_sniffed (env : Env) (conn : TCPListener) (h : StartupOk env conn) :
    (Run env World.init).2.sniffed =
      (cMux.loop (Run.sniffer conn) env.sat env.Accept (Run.started env conn)).2.sniffed := by
  rw [Run_started env conn h, (finish_sniffed _).1, (defer_close _ _ _).2.2.1]

theorem Run_cases (env : Env) : (∃ e, StartupFails env e) ∨ ∃ conn, StartupOk env conn := by
  cases hl : env.Listen "tcp" (":" ++ toString port) with
  | error e => exact Or.inl ⟨e, Or.inl hl⟩
  | ok conn =>
    cases hv : env.RegisterVersionServiceHandlerFromEndpoint Run.ctx Run.gwmux endpoint Run.dOpts with
    | some e => exact Or.inl ⟨e, Or.inr ⟨⟨conn, hl⟩, Or.inl hv⟩⟩
    | none =>
      cases hc : env.RegisterClusterServiceHandlerFromEndpoint Run.ctx Run.gwmux endpoint
          Run.dOpts with
      | some e => exact Or.inl ⟨e, Or.inr ⟨⟨conn, hl⟩, Or.inr ⟨hv, hc⟩⟩⟩
      | none => exact Or.inr ⟨conn, hl, hv, hc⟩

theorem Run_failed (env : Env) (e : Error) (h : StartupFails env e) :
    (Run env World.init).1 = Outcome.panicked (PanicValue.err e) ∧
      (Run env World.init).2.trace.filter Event.isServe = [] ∧
      (Run env World.init).2.goroutines = [] ∧ (Run env World.init).2.sniffed = [] := by
  rcases h with hl | ⟨⟨conn, hl⟩, hv | ⟨hv, hc⟩⟩
  · rw [Run_listen_error env e hl]
    simp [Event.isServe]
  · rw [Run_version_error env conn e hl hv]
    simp [Event.isServe]
  · rw [Run_cluster_error env conn e hl hv hc]
    simp [Event.isServe, Run.wired]

theorem Run_muxServe_mem (env : Env) (m : cMux)
    (hm : Event.muxServe m ∈ (Run env World.init).2.trace) :
    ∃ conn, StartupOk env conn ∧ m = Run.sniffer conn := by
  rcases Run_cases env with ⟨e, hf⟩ | ⟨conn, hs⟩
  · exfalso
    have h0 := (Run_failed env e hf).2.1
    have : Event.muxServe m ∈ (Run env World.init).2.trace.filter Event.isServe :=
      List.mem_filter.2 ⟨hm, rfl⟩
    rw [h0] at this
    exact List.not_mem_nil _ this
  · refine ⟨conn, hs, ?_⟩
    have : Event.muxServe m ∈ (Run env World.init).2.trace.filter Event.isServe :=
      List.mem_filter.2 ⟨hm, rfl⟩
    rw [Run_started_filter env conn hs Event.isServe rfl] at this
    simpa [Run.started, Run.wired, Event.isServe] using this

end server

namespace server
open Go

theorem Run_started_mem (env : Env) (conn : TCPListener) (h : StartupOk env conn) (e : Event)
    (he : e ∈ (Run.started env conn).trace) : e ∈ (Run env World.init).2.trace := by
  rcases Run_started_trace env conn h with ht | ht
  · rw [ht]
    exact he
  · rw [ht]
    exact List.mem_append_left _ he

/-- C3: when startup succeeds, the multiplexer that `Run` serves holds the two
rules in the order of their registration, the HTTP/2 `content-type:
application/grpc` rule first and the HTTP/1 rule second, each with its own
sub-listener, `grpcL` served by `grpcS` and `httpL` by `httpS`. A connection that
satisfies the first rule is sent on the channel of `grpcL` once and on no other,
whatever the HTTP/1 rule says of it: classifying it adds the one record with target
`grpcL`, every record of it in a run of `Run` has target `grpcL`, and when it is
accepted after accept results that do not end the dispatch loop that record is
there. -/
theorem rpc_connection_routed_to_grpc (env : Env) (conn : TCPListener) (c : Conn)
    (hstart : StartupOk env conn)
    (hrpc : env.sat (Matcher.HTTP2HeaderField "content-type" "application/grpc") c = true) :
    (Run env World.init).2.trace.filter Event.isServe =
      [Event.goServe (Server.grpc Run.grpcS) (Listener.mux (Run.grpcL conn)),
       Event.goServe (Server.http Run.httpS) (Listener.mux (Run.httpL conn)),
       Event.muxServe (Run.sniffer conn)] ∧
    (Run.sniffer conn).sls =
      [{ ss := [Matcher.HTTP2HeaderField "content-type" "application/grpc"],
         l := Run.grpcL conn },
       { ss := [Matcher.HTTP1Fast []], l := Run.httpL conn }] ∧
    Run.grpcL conn ≠ Run.httpL conn ∧
    (∀ w, ((Run.sniffer conn).serve env.sat c w).sniffed =
      w.sniffed ++ [{ conn := c, readDeadline := none, target := some (Run.grpcL conn) }]) ∧
    (∀ s ∈ (Run env World.init).2.sniffed, s.conn = c → s.target = some (Run.grpcL conn)) ∧
    (∀ pre post, env.Accept = pre ++ Accepted.conn c :: post →
      (∀ a ∈ pre, (Run.sniffer conn).skips a) →
      { conn := c, readDeadline := none, target := some (Run.grpcL conn) }
        ∈ (Run env World.init).2.sniffed) := by
  have hcl : (Run.sniffer conn).classify env.sat c = some (Run.grpcL conn) := by
    rw [sniffer_classify]
    simp [Run.grpcRule, hrpc]
  refine ⟨?_, ?_, ?_, ?_, ?_, ?_⟩
  · rw [Run_started_filter env conn hstart Event.isServe rfl]
    simp [Run.started, Run.wired, Event.isServe]
  · simp [Run.sniffer, cMux.Match, cmux.New, Run.grpcL, Run.httpL, Run.grpcRule, Run.httpRule]
  · simp [Run.grpcL, Run.httpL, cMux.Match, cmux.New]
  · intro w
    rw [sniffer_serve, hcl]
  · intro s hs hc
    rw [Run_started_sniffed env conn hstart] at hs
    rcases loop_sniffed_mem _ _ _ _ s hs with h | ⟨c', _, hs'⟩
    · simp [Run.started] at h
    · subst hs'
      simp only at hc
      subst hc
      exact hcl
  · intro pre post hacc hpre
    rw [Run_started_sniffed env conn hstart, hacc, loop_append _ _ _ _ _ hpre]
    simp only [cMux.loop]
    apply loop_sniffed_sub
    rw [sniffer_serve, hcl]
    simp

/-- C4: when startup succeeds, a connection that satisfies the HTTP/1 rule and not
the HTTP/2 `content-type: application/grpc` rule is sent on the channel of `httpL`
once and on no other. `httpL` is the listener `httpS` serves, the handler of `httpS`
routes "/" to the gateway mux, and that mux is the one the gateway handlers were
registered in. -/
theorem http1_connection_routed_to_gateway (env : Env) (conn : TCPListener) (c : Conn)
    (hstart : StartupOk env conn)
    (hhttp : env.sat (Matcher.HTTP1Fast []) c = true)
    (hrpc : env.sat (Matcher.HTTP2HeaderField "content-type" "application/grpc") c = false) :
    (Run env World.init).2.trace.filter Event.isServe =
      [Event.goServe (Server.grpc Run.grpcS) (Listener.mux (Run.grpcL conn)),
       Event.goServe (Server.http Run.httpS) (Listener.mux (Run.httpL conn)),
       Event.muxServe (Run.sniffer conn)] ∧
    Run.httpS.Handler.routes = [("/", Run.gwmux)] ∧
    Event.register Run.ctx Run.gwmux endpoint Run.dOpts ∈ (Run env World.init).2.trace ∧
    Run.httpL conn ≠ Run.grpcL conn ∧
    (∀ w, ((Run.sniffer conn).serve env.sat c w).sniffed =
      w.sniffed ++ [{ conn := c, readDeadline := none, target := some (Run.httpL conn) }]) ∧
    (∀ s ∈ (Run env World.init).2.sniffed, s.conn = c → s.target = some (Run.httpL conn)) ∧
    (∀ pre post, env.Accept = pre ++ Accepted.conn c :: post →
      (∀ a ∈ pre, (Run.sniffer conn).skips a) →
      { conn := c, readDeadline := none, target := some (Run.httpL conn) }
        ∈ (Run env World.init).2.sniffed) := by
  have hcl : (Run.sniffer conn).classify env.sat c = some (Run.httpL conn) := by
    rw [sniffer_classify]
    simp [Run.grpcRule, Run.httpRule, hrpc, hhttp]
  refine ⟨?_, ?_, ?_, ?_, ?_, ?_, ?_⟩
  · rw [Run_started_filter env conn hstart Event.isServe rfl]
    simp [Run.started, Run.wired, Event.isServe]
  · simp [Run.httpS, http.ServeMux.Handle, http.NewServeMux]
  · apply Run_started_mem env conn hstart
    simp [Run.started, Run.wired]
  · simp [Run.grpcL, Run.httpL, cMux.Match, cmux.New]
  · intro w
    rw [sniffer_serve, hcl]
  · intro s hs hc
    rw [Run_started_sniffed env conn hstart] at hs
    rcases loop_sniffed_mem _ _ _ _ s hs with h | ⟨c', _, hs'⟩
    · simp [Run.started] at h
    · subst hs'
      simp only at hc
      subst hc
      exact hcl
  · intro pre post hacc hpre
    rw [Run_started_sniffed env conn hstart, hacc, loop_append _ _ _ _ _ hpre]
    simp only [cMux.loop]
    apply loop_sniffed_sub
    rw [sniffer_serve, hcl]
    simp

end server

namespace server
open Go

/-- Witness of C3 on `Example.env`: the connection that starts with `PRI` is on the
channel of `grpcL`, and the rule order is the one of the theorem. -/
theorem rpc_connection_routed_to_grpc_witness :
    StartupOk Example.env Example.socket ∧
    Example.env.sat (Matcher.HTTP2HeaderField "content-type" "application/grpc")
      Example.rpcConn = true ∧
    (∀ s ∈ (Run Example.env World.init).2.sniffed, s.conn = Example.rpcConn →
      s.target = some (Run.grpcL Example.socket)) ∧
    { conn := Example.rpcConn, readDeadline := none,
      target := some (Run.grpcL Example.socket) } ∈ (Run Example.env World.init).2.sniffed :=
  have h := rpc_connection_routed_to_grpc Example.env Example.socket Example.rpcConn
    ⟨rfl, rfl, rfl⟩ rfl
  ⟨⟨rfl, rfl, rfl⟩, rfl, h.2.2.2.2.1,
    h.2.2.2.2.2 [] [Accepted.conn Example.otherConn, Accepted.conn Example.httpConn] rfl
      (by simp)⟩

/-- Witness of C4 on `Example.env`: the connection that starts with `GET` is on the
channel of `httpL`, after a matched and an unmatched connection. -/
theorem http1_connection_routed_to_gateway_witness :
    StartupOk Example.env Example.socket ∧
    Example.env.sat (Matcher.HTTP1Fast []) Example.httpConn = true ∧
    Example.env.sat (Matcher.HTTP2HeaderField "content-type" "application/grpc")
      Example.httpConn = false ∧
    { conn := Example.httpConn, readDeadline := none,
      target := some (Run.httpL Example.socket) } ∈ (Run Example.env World.init).2.sniffed :=
  have h := http1_connection_routed_to_gateway Example.env Example.socket Example.httpConn
    ⟨rfl, rfl, rfl⟩ rfl rfl
  ⟨⟨rfl, rfl, rfl⟩, rfl, rfl,
    h.2.2.2.2.2.2 [Accepted.conn Example.rpcConn, Accepted.conn Example.otherConn] [] rfl
      (by simp [cMux.skips])⟩

/-- C5: when startup fails with the error `e` (`net.Listen` returns `e`, or the
socket opens and a gateway registration returns `e`), `Run` panics with `e` and has
called no `Serve` method, started no goroutine and classified no connection, and
`mustRegisterGWHandler` calls `register` once, with the arguments it was given, and
returns exactly when `register` returns nil; otherwise it panics with the error of
`register`. -/
theorem startup_all_or_nothing (env : Env) (e : Error) (h : StartupFails env e) :
    (Run env World.init).1 = Outcome.panicked (PanicValue.err e) ∧
    (Run env World.init).2.trace.filter Event.isServe = [] ∧
    (Run env World.init).2.goroutines = [] ∧
    (Run env World.init).2.sniffed = [] ∧
    (∀ (register : registerFunc) ctx mux ep opts (w : World),
      (mustRegisterGWHandler register ctx mux ep opts w).2.trace =
        w.trace ++ [Event.register ctx mux ep opts] ∧
      ((mustRegisterGWHandler register ctx mux ep opts w).1 = Outcome.returned () ↔
        register ctx mux ep opts = none) ∧
      (∀ e', register ctx mux ep opts = some e' →
        (mustRegisterGWHandler register ctx mux ep opts w).1 =
          Outcome.panicked (PanicValue.err e'))) := by
  refine ⟨(Run_failed env e h).1, (Run_failed env e h).2.1, (Run_failed env e h).2.2.1,
    (Run_failed env e h).2.2.2, ?_⟩
  intro register ctx mux ep opts w
  cases hr : register ctx mux ep opts with
  | none =>
    simp [mustRegisterGWHandler, registerFunc.call, bind, Exec.seq, hr, pure, Exec.ret,
      World.log]
  | some e' =>
    simp [mustRegisterGWHandler, registerFunc.call, bind, Exec.seq, hr, Exec.panic, World.log]

/-- Witness of C5 on `Example.envRegisterFails`: the socket opens, the second
registration fails, and `Run` panics with that error before any `Serve`. -/
theorem startup_all_or_nothing_witness :
    StartupFails Example.envRegisterFails Example.dialFailed ∧
    (Run Example.envRegisterFails World.init).1 =
      Outcome.panicked (PanicValue.err Example.dialFailed) ∧
    (Run Example.envRegisterFails World.init).2.trace.filter Event.isServe = [] :=
  have hf : StartupFails Example.envRegisterFails Example.dialFailed :=
    Or.inr ⟨⟨Example.socket, rfl⟩, Or.inr ⟨rfl, rfl⟩⟩
  have h := startup_all_or_nothing Example.envRegisterFails Example.dialFailed hf
  ⟨hf, h.1, h.2.1⟩

/-- C7, as stated, fails on `Example.env`: the multiplexer that `Run` serves has
`readTimeout = noTimeout`, it arms no read deadline for the probe, and the three
connections of the run were probed without one. -/
theorem probe_timeout_unset_example :
    (∃ m, Event.muxServe m ∈ (Run Example.env World.init).2.trace ∧
      m.readTimeout = noTimeout ∧ m.probeDeadline = none) ∧
    (Run Example.env World.init).2.sniffed.map Sniff.readDeadline = [none, none, none] := by
  refine ⟨⟨Run.sniffer Example.socket, ?_, sniffer_probeDeadline _⟩, by decide⟩
  apply Run_started_mem Example.env Example.socket ⟨rfl, rfl, rfl⟩
  simp [Run.started]

/-- C7, amended: `Run` makes the multiplexer with `cmux.New(conn)` and two `Match`
calls and sets no read timeout, so the multiplexer it serves has `readTimeout =
noTimeout`, arms no read deadline for the classification probe, and every
connection classified in a run of `Run` was probed without a deadline. -/
theorem probe_has_no_deadline (env : Env) (m : cMux)
    (hm : Event.muxServe m ∈ (Run env World.init).2.trace) :
    m.readTimeout = noTimeout ∧ m.probeDeadline = none ∧
    (∀ s ∈ (Run env World.init).2.sniffed, s.readDeadline = none) := by
  obtain ⟨conn, hs, rfl⟩ := Run_muxServe_mem env m hm
  refine ⟨(sniffer_probeDeadline conn).1, (sniffer_probeDeadline conn).2, ?_⟩
  intro s hmem
  rw [Run_started_sniffed env conn hs] at hmem
  rcases loop_sniffed_mem _ _ _ _ s hmem with h | ⟨c', _, hs'⟩
  · simp [Run.started] at h
  · subst hs'
    exact (sniffer_probeDeadline conn).2

/-- Witness of the amended C7 on `Example.env`. -/
theorem probe_has_no_deadline_witness :
    Event.muxServe (Run.sniffer Example.socket) ∈ (Run Example.env World.init).2.trace ∧
    (Run.sniffer Example.socket).probeDeadline = none :=
  have hm : Event.muxServe (Run.sniffer Example.socket) ∈
      (Run Example.env World.init).2.trace :=
    Run_started_mem Example.env Example.socket ⟨rfl, rfl, rfl⟩ _ (by simp [Run.started])
  ⟨hm, (probe_has_no_deadline Example.env (Run.sniffer Example.socket) hm).2.1⟩

end server

namespace server
open Go

theorem finish_rootClosed (r : Outcome Error (Option Error) × World) :
    (Run.finish r).2.rootClosed = r.2.rootClosed := by
  rcases r with ⟨(_ | _) | _ | _, w⟩ <;> simp [Run.finish, cancel, World.log]

theorem Run_started_outcome (env : Env) (conn : TCPListener) (h : StartupOk env conn)
    (w : World) :
    (Run env World.init).1 =
      match (cMux.loop (Run.sniffer conn) env.sat env.Accept w).1 with
      | Outcome.returned (some e) => Outcome.panicked (PanicValue.err e)
      | Outcome.returned none => Outcome.returned ()
      | Outcome.panicked p => Outcome.panicked p
      | Outcome.blocked => Outcome.blocked := by
  rw [Run_started env conn h, finish_outcome, (defer_close _ _ _).1,
    loop_outcome_world (Run.sniffer conn) env.sat env.Accept (Run.started env conn) w]

/-- C8: when startup succeeds, a connection that satisfies neither rule is closed
and sent on no channel: classifying it adds the one record without a target and
changes nothing else (the root listener stays open), every record of it in a run of
`Run` is without a target, and the failure stays with the connection: the root
listener is not closed, the way `Run` ends is the same as without the connection
among the accepted ones, and `Run` goes on serving while `Accept` yields only
connections. When the connection is accepted after accept results that do not end
the dispatch loop, its record without a target is among those of the run. -/
theorem unmatched_connection_dropped (env : Env) (conn : TCPListener) (c : Conn)
    (hstart : StartupOk env conn)
    (hrpc : env.sat (Matcher.HTTP2HeaderField "content-type" "application/grpc") c = false)
    (hhttp : env.sat (Matcher.HTTP1Fast []) c = false) :
    Event.muxServe (Run.sniffer conn) ∈ (Run env World.init).2.trace ∧
    (∀ w, (Run.sniffer conn).serve env.sat c w =
      { w with sniffed := w.sniffed ++ [{ conn := c, readDeadline := none, target := none }] }) ∧
    (∀ s ∈ (Run env World.init).2.sniffed, s.conn = c → s.target = none) ∧
    (Run env World.init).2.rootClosed = false ∧
    (∀ pre post, env.Accept = pre ++ Accepted.conn c :: post →
      (Run env World.init).1 = (Run { env with Accept := pre ++ post } World.init).1) ∧
    ((∀ a ∈ env.Accept, ∃ c', a = Accepted.conn c') →
      (Run env World.init).1 = Outcome.blocked) ∧
    (∀ pre post, env.Accept = pre ++ Accepted.conn c :: post →
      (∀ a ∈ pre, (Run.sniffer conn).skips a) →
      { conn := c, readDeadline := none, target := none }
        ∈ (Run env World.init).2.sniffed) := by
  have hcl : (Run.sniffer conn).classify env.sat c = none := by
    rw [sniffer_classify]
    simp [Run.grpcRule, Run.httpRule, hrpc, hhttp]
  refine ⟨?_, ?_, ?_, ?_, ?_, ?_, ?_⟩
  · apply Run_started_mem env conn hstart
    simp [Run.started]
  · intro w
    rw [sniffer_serve, hcl]
  · intro s hs hc
    rw [Run_started_sniffed env conn hstart] at hs
    rcases loop_sniffed_mem _ _ _ _ s hs with h | ⟨c', _, hs'⟩
    · simp [Run.started] at h
    · subst hs'
      simp only at hc
      subst hc
      exact hcl
  · rw [Run_started env conn hstart, finish_rootClosed, (defer_close _ _ _).2.2.2,
      loop_rootClosed]
    rfl
  · intro pre post hacc
    have hstart' : StartupOk { env with Accept := pre ++ post } conn := hstart
    rw [Run_started_outcome env conn hstart World.init,
      Run_started_outcome _ conn hstart' World.init, hacc]
    simp only []
    rw [loop_outcome_remove]
  · intro hall
    rw [Run_started_outcome env conn hstart World.init]
    rcases loop_outcome (Run.sniffer conn) env.sat env.Accept World.init with h | ⟨e, he, _, _⟩
    · rw [h]
    · obtain ⟨c', hc'⟩ := hall _ he
      cases hc'
  · intro pre post hacc hpre
    rw [Run_started_sniffed env conn hstart, hacc, loop_append _ _ _ _ _ hpre]
    simp only [cMux.loop]
    apply loop_sniffed_sub
    rw [sniffer_serve, hcl]
    simp

/-- Witness of C8 on `Example.env`: the connection that starts with a TLS record,
accepted after a matched one, has its record without a target among those of the
run, every record of it is without a target, and `Run` goes on serving. -/
theorem unmatched_connection_dropped_witness :
    StartupOk Example.env Example.socket ∧
    { conn := Example.otherConn, readDeadline := none, target := none }
      ∈ (Run Example.env World.init).2.sniffed ∧
    (∀ s ∈ (Run Example.env World.init).2.sniffed, s.conn = Example.otherConn →
      s.target = none) ∧
    (Run Example.env World.init).2.rootClosed = false ∧
    (Run Example.env World.init).1 = Outcome.blocked :=
  have h := unmatched_connection_dropped Example.env Example.socket Example.otherConn
    ⟨rfl, rfl, rfl⟩ rfl rfl
  ⟨⟨rfl, rfl, rfl⟩,
    h.2.2.2.2.2.2 [Accepted.conn Example.rpcConn] [Accepted.conn Example.httpConn] rfl
      (by simp [cMux.skips]),
    h.2.2.1, h.2.2.2.1, h.2.2.2.2.2.1 (by simp [Example.env])⟩

theorem serve_closed (m : cMux) (sat : Matcher → Conn → Bool) (c : Conn) (w : World) :
    (m.serve sat c w).closedByWorker = w.closedByWorker := by
  unfold cMux.serve
  cases h : m.sls.find? (fun sl => sl.ss.any (fun s => sat s c)) with
  | none => by_cases hh : m.handleErr (ErrNotAMatch c) = true <;> simp [hh]
  | some sl => simp

theorem loop_closed (m : cMux) (sat : Matcher → Conn → Bool) (l : List Accepted) (w : World) :
    (cMux.loop m sat l w).2.closedByWorker = w.closedByWorker := by
  induction l generalizing w with
  | nil => simp [cMux.loop]
  | cons a rest ih =>
    cases a with
    | conn c =>
      simp only [cMux.loop]
      rw [ih, serve_closed]
    | err e =>
      by_cases hh : m.handleErr e = true
      · simp only [cMux.loop, hh]
        exact ih w
      · simp [cMux.loop, hh, Exec.ret]

theorem loop_fatal (m : cMux) (sat : Matcher → Conn → Bool) (pre post : List Accepted)
    (e : Error) (w : World) (hpre : ∀ a ∈ pre, m.skips a) (he : m.handleErr e = false) :
    (cMux.loop m sat (pre ++ Accepted.err e :: post) w).1 = Outcome.returned (some e) := by
  rw [loop_append m sat pre _ w hpre]
  simp [cMux.loop, he, Exec.ret]

theorem Run_started_workers (env : Env) (conn : TCPListener) (h : StartupOk env conn) :
    ((cMux.loop (Run.sniffer conn) env.sat env.Accept (Run.started env conn)).1
        = Outcome.blocked →
      (Run env World.init).2.goroutines =
        [(Server.grpc Run.grpcS, Listener.mux (Run.grpcL conn), none),
         (Server.http Run.httpS, Listener.mux (Run.httpL conn), none)] ∧
      (Run env World.init).2.closedByWorker = []) ∧
    (∀ e, (cMux.loop (Run.sniffer conn) env.sat env.Accept (Run.started env conn)).1
        = Outcome.returned (some e) →
      (Run env World.init).2.goroutines =
        [(Server.grpc Run.grpcS, Listener.mux (Run.grpcL conn), some (some ErrListenerClosed)),
         (Server.http Run.httpS, Listener.mux (Run.httpL conn), some (some ErrListenerClosed))] ∧
      (Run env World.init).2.closedByWorker =
        [Listener.mux (Run.grpcL conn), Listener.mux (Run.httpL conn)]) := by
  have hg := (loop_trace (Run.sniffer conn) env.sat env.Accept (Run.started env conn)).2
  have hc := loop_closed (Run.sniffer conn) env.sat env.Accept (Run.started env conn)
  rw [Run_started env conn h]
  unfold Exec.withDefer
  generalize cMux.loop (Run.sniffer conn) env.sat env.Accept (Run.started env conn) = r at hg hc
  rcases r with ⟨(_ | _) | _ | _, w⟩
  · simp
  · simp only [Run.finish, cancel, World.log, cMux.closeChannels] at hg hc ⊢
    refine ⟨fun hb => by simp at hb, fun e _ => ?_⟩
    rw [hg, hc]
    simp [Run.started, cMux.serves, Run.sniffer, Run.grpcL, Run.httpL, cMux.Match, cmux.New]
  · simp
  · simp only [Run.finish] at hg hc ⊢
    refine ⟨fun _ => ?_, fun e he => by simp at he⟩
    rw [hg, hc]
    simp [Run.started]

/-- C9: when startup succeeds, `Run` serves the multiplexer, and a fatal error while
serving stops it: when the call `m.Serve()` returns an error `Run` panics with that
error, and it does return one when `Accept` on the root listener fails with an error
that is not temporary (such as the listening socket closing) after accept results
that do not end the dispatch loop; both workers then get `ErrListenerClosed` from
their sub-listener, return it and close their listener. A worker returns an error
in no other case, so whenever a worker has returned an error `Run` has panicked,
and while `Run` stays in the dispatch loop both workers serve. -/
theorem serving_error_stops_Run (env : Env) (conn : TCPListener)
    (hstart : StartupOk env conn) :
    Event.muxServe (Run.sniffer conn) ∈ (Run env World.init).2.trace ∧
    (∀ e w, ((Run.sniffer conn).Serve env w).1 = Outcome.returned (some e) →
      (Run env World.init).1 = Outcome.panicked (PanicValue.err e)) ∧
    (∀ pre e post, env.Accept = pre ++ Accepted.err e :: post →
      (∀ a ∈ pre, (Run.sniffer conn).skips a) → e.temporary ≠ some true →
      (Run env World.init).1 = Outcome.panicked (PanicValue.err e) ∧
      (Run env World.init).2.goroutines =
        [(Server.grpc Run.grpcS, Listener.mux (Run.grpcL conn), some (some ErrListenerClosed)),
         (Server.http Run.httpS, Listener.mux (Run.httpL conn), some (some ErrListenerClosed))] ∧
      (Run env World.init).2.closedByWorker =
        [Listener.mux (Run.grpcL conn), Listener.mux (Run.httpL conn)]) ∧
    (∀ s l err, (s, l, some (some err)) ∈ (Run env World.init).2.goroutines →
      ∃ e, (Run env World.init).1 = Outcome.panicked (PanicValue.err e)) ∧
    ((Run env World.init).1 = Outcome.blocked →
      (Run env World.init).2.goroutines =
        [(Server.grpc Run.grpcS, Listener.mux (Run.grpcL conn), none),
         (Server.http Run.httpS, Listener.mux (Run.httpL conn), none)]) := by
  have hw := Run_started_workers env conn hstart
  have ho := Run_started_outcome env conn hstart (Run.started env conn)
  refine ⟨?_, ?_, ?_, ?_, ?_⟩
  · apply Run_started_mem env conn hstart
    simp [Run.started]
  · intro e w hserve
    rw [Run_started_outcome env conn hstart (w.log (Event.muxServe (Run.sniffer conn)))]
    unfold cMux.Serve at hserve
    rw [(defer_close _ _ _).1] at hserve
    rw [hserve]
  · intro pre e post hacc hpre he
    have hf : (Run.sniffer conn).handleErr e = false := by
      rw [sniffer_handleErr]
      simpa using he
    have hl := loop_fatal (Run.sniffer conn) env.sat pre post e (Run.started env conn) hpre hf
    rw [← hacc] at hl
    refine ⟨?_, hw.2 e hl⟩
    rw [ho, hl]
  · intro s l err hmem
    rcases loop_outcome (Run.sniffer conn) env.sat env.Accept (Run.started env conn)
      with hb | ⟨e, _, _, hr⟩
    · rw [(hw.1 hb).1] at hmem
      simp at hmem
    · exact ⟨e, by rw [ho, hr]⟩
  · intro hb
    rcases loop_outcome (Run.sniffer conn) env.sat env.Accept (Run.started env conn)
      with hb' | ⟨e, _, _, hr⟩
    · exact (hw.1 hb').1
    · rw [ho, hr] at hb
      cases hb

/-- Witness of C9 on `Example.envAcceptFails`: the second `Accept` fails with an
error that is not temporary; `Run` panics with it, and both workers have returned
`ErrListenerClosed`. -/
theorem serving_error_stops_Run_witness :
    StartupOk Example.envAcceptFails Example.socket ∧
    (Run Example.envAcceptFails World.init).1 =
      Outcome.panicked (PanicValue.err Example.closed) ∧
    (Run Example.envAcceptFails World.init).2.goroutines =
      [(Server.grpc Run.grpcS, Listener.mux (Run.grpcL Example.socket),
          some (some ErrListenerClosed)),
       (Server.http Run.httpS, Listener.mux (Run.httpL Example.socket),
          some (some ErrListenerClosed))] :=
  have h := (serving_error_stops_Run Example.envAcceptFails Example.socket
    ⟨rfl, rfl, rfl⟩).2.2.1 [Accepted.conn Example.rpcConn] Example.closed
    [Accepted.conn Example.httpConn] rfl (by simp [cMux.skips]) (by decide)
  ⟨⟨rfl, rfl, rfl⟩, h.1, h.2.1⟩

/-- C10: when startup succeeds, `Run` calls `net.Listen` once and `cmux.New` once,
on the socket `net.Listen` returned; the `Serve` calls are `grpcS.Serve(grpcL)`,
`httpS.Serve(httpL)` and `m.Serve()`, in this order; `m` is the multiplexer over the
socket, `grpcL` and `httpL` are the sub-listeners of its two `Match` calls and are
distinct; and no server is given the raw socket. -/
theorem raw_socket_only_through_sniffer (env : Env) (conn : TCPListener)
    (hstart : StartupOk env conn) :
    (Run env World.init).2.trace.filter Event.isListen = [Event.Listen "tcp" ":8080"] ∧
    (Run env World.init).2.trace.filter Event.isCmuxNew = [Event.cmuxNew conn] ∧
    (Run env World.init).2.trace.filter Event.isServe =
      [Event.goServe (Server.grpc Run.grpcS) (Listener.mux (Run.grpcL conn)),
       Event.goServe (Server.http Run.httpS) (Listener.mux (Run.httpL conn)),
       Event.muxServe (Run.sniffer conn)] ∧
    (Run.sniffer conn).root = conn ∧
    (Run.sniffer conn).sls.map (fun sl => sl.l) = [Run.grpcL conn, Run.httpL conn] ∧
    (Run.grpcL conn).root = conn ∧ (Run.httpL conn).root = conn ∧
    Run.grpcL conn ≠ Run.httpL conn ∧
    (∀ s l, Event.goServe s l ∈ (Run env World.init).2.trace → ∀ t, l ≠ Listener.tcp t) := by
  have hserve : (Run env World.init).2.trace.filter Event.isServe =
      [Event.goServe (Server.grpc Run.grpcS) (Listener.mux (Run.grpcL conn)),
       Event.goServe (Server.http Run.httpS) (Listener.mux (Run.httpL conn)),
       Event.muxServe (Run.sniffer conn)] := by
    rw [Run_started_filter env conn hstart Event.isServe rfl]
    simp [Run.started, Run.wired, Event.isServe]
  refine ⟨?_, ?_, hserve, ?_, ?_, ?_, ?_, ?_, ?_⟩
  · rw [Run_started_filter env conn hstart Event.isListen rfl]
    simp [Run.started, Run.wired, Event.isListen]
    decide
  · rw [Run_started_filter env conn hstart Event.isCmuxNew rfl]
    simp [Run.started, Run.wired, Event.isCmuxNew]
  · simp [Run.sniffer, cMux.Match, cmux.New]
  · simp [Run.sniffer, cMux.Match, cmux.New, Run.grpcL, Run.httpL]
  · simp [Run.grpcL, cMux.Match, cmux.New]
  · simp [Run.httpL, cMux.Match, cmux.New]
  · simp [Run.grpcL, Run.httpL, cMux.Match, cmux.New]
  · intro s l hmem t hl
    have : Event.goServe s l ∈ (Run env World.init).2.trace.filter Event.isServe :=
      List.mem_filter.2 ⟨hmem, rfl⟩
    rw [hserve] at this
    subst hl
    simp at this

/-- Witness of C10 on `Example.env`. -/
theorem raw_socket_only_through_sniffer_witness :
    StartupOk Example.env Example.socket ∧
    (Run Example.env World.init).2.trace.filter Event.isListen =
      [Event.Listen "tcp" ":8080"] ∧
    (Run Example.env World.init).2.trace.filter Event.isCmuxNew =
      [Event.cmuxNew Example.socket] :=
  have h := raw_socket_only_through_sniffer Example.env Example.socket ⟨rfl, rfl, rfl⟩
  ⟨⟨rfl, rfl, rfl⟩, h.1, h.2.1⟩

end server
